import Mathlib

/-!
Shallow embedding of `tower-log` (`src/tower-log/src/lib.rs`), a Tower
middleware crate providing two decorators, `LogErrors` and `LogResponses`,
which wrap a `Future`, `Service` or `NewService` and emit log records as a
side effect while forwarding every outcome unchanged.

Modelling conventions:
- `Async R` mirrors `futures::Async<R>` (`Ready(r)` / `NotReady`).
- A single poll outcome `Poll<R, E> = Result<Async<R>, E>` is
  `PollResult R E := Except E (Async R)`.
- An inner future is modelled by the list of outcomes its successive
  `poll` calls return; running a decorator over that list threads the
  per-poll function and collects emitted `LogRecord`s.
- Logging (`log::Log::log(log::logger(), ...)`) is modelled by returning
  the constructed record(s) alongside the forwarded outcome; rendering
  (`Display` of errors, `Debug` of responses) is passed in as a
  `render : _ → String` function.
- `module_path!()`, `file!()` and `line!()` inside the crate are the
  constants `towerLogModulePath`, `towerLogFile`, `logErrorsLine`,
  `logResponsesLine` below.
-/

namespace TowerLog

/-- `log::Level` of the `log` crate. -/
inductive Level where
  | Error
  | Warn
  | Info
  | Debug
  | Trace
deriving DecidableEq, Repr

/-- `futures::Async<R>`: `Ready(r)` or `NotReady`. -/
inductive Async (R : Type) where
  | NotReady
  | Ready (r : R)
deriving DecidableEq, Repr

/-- One result of `poll`: `Poll<R, E> = Result<Async<R>, E>`. -/
abbrev PollResult (R E : Type) := Except E (Async R)

/-- A log record as assembled by `log::RecordBuilder` in `log_line`:
level, target, module path, file, line and the formatted message. -/
structure LogRecord where
  level : Level
  target : String
  module_path : Option String
  file : Option String
  line : Option Nat
  message : String
deriving DecidableEq, Repr

/-- `module_path!()` evaluated inside the crate root of `tower-log`. -/
def towerLogModulePath : String := "tower_log"

/-- `file!()` evaluated inside `src/tower-log/src/lib.rs`. -/
def towerLogFile : String := "src/lib.rs"

/-- `line!()` at the `RecordBuilder::line` call in `LogErrors::log_line`. -/
def logErrorsLine : Nat := 198

/-- `line!()` at the `RecordBuilder::line` call in `LogResponses::log_line`. -/
def logResponsesLine : Nat := 365

/-- `struct LogErrors<T>`: the error-logging decorator. -/
structure LogErrors (T : Type) where
  inner : T
  level : Level
  target : Option String
  module_path : Option String
  file : Option String
  line : Option Nat
deriving DecidableEq, Repr

/-- `struct LogResponses<T>`: the response-logging decorator. -/
structure LogResponses (T : Type) where
  inner : T
  level : Level
  not_ready : Bool
  target : Option String
  module_path : Option String
  file : Option String
  line : Option Nat
deriving DecidableEq, Repr

namespace LogErrors

/-- `LogErrors::new(inner)`: level defaults to `Error`, everything else unset. -/
def new {T : Type} (inner : T) : LogErrors T :=
  { inner := inner
  , level := Level.Error
  , target := none
  , module_path := none
  , file := none
  , line := none }

/-- `LogErrors::at_level`. -/
def at_level {T : Type} (s : LogErrors T) (level : Level) : LogErrors T :=
  { s with level := level }

/-- `LogErrors::with_target`. -/
def with_target {T : Type} (s : LogErrors T) (target : String) : LogErrors T :=
  { s with target := some target }

/-- `LogErrors::in_module`. -/
def in_module {T : Type} (s : LogErrors T) (module_path : String) : LogErrors T :=
  { s with module_path := some module_path }

/-- `LogErrors::at_location(file, line)`. -/
def at_location {T : Type} (s : LogErrors T) (file : String) (line : Nat) :
    LogErrors T :=
  { s with file := some file, line := some line }

/-- `LogErrors::child`: wrap a new inner value with a copy of the
configuration. -/
def child {T U : Type} (s : LogErrors T) (inner : U) : LogErrors U :=
  { inner := inner
  , level := s.level
  , target := s.target
  , module_path := s.module_path
  , file := s.file
  , line := s.line }

/-- `LogErrors::log_line(error, context)`: builds the emitted record.
`err` is the `Display` rendering of the error. -/
def log_line {T : Type} (s : LogErrors T) (err : String) (context : String) :
    LogRecord :=
  { level := s.level
  , file := some (s.file.getD towerLogFile)
  , line := some (s.line.getD logErrorsLine)
  , target := (s.target <|> s.module_path).getD towerLogModulePath
  , module_path := (s.module_path <|> s.target) <|> some towerLogModulePath
  , message := context ++ ": " ++ err }

/-- `impl Future for LogErrors`: `poll` forwards the inner poll outcome,
logging on the error path (`map_err`). Returns the outcome together with
the records emitted by this poll. -/
def poll {T R E : Type} (s : LogErrors T) (render : E → String)
    (p : PollResult R E) : PollResult R E × List LogRecord :=
  match p with
  | Except.error e => (Except.error e, [s.log_line (render e) "Future::poll"])
  | Except.ok a => (Except.ok a, [])

/-- `impl Service for LogErrors`: `poll_ready` forwards the inner
readiness outcome, logging on the error path. -/
def poll_ready {T E : Type} (s : LogErrors T) (render : E → String)
    (p : PollResult Unit E) : PollResult Unit E × List LogRecord :=
  match p with
  | Except.error e =>
      (Except.error e, [s.log_line (render e) "Service::poll_ready"])
  | Except.ok a => (Except.ok a, [])

/-- `impl Service for LogErrors`: `call` forwards the request to the inner
service and wraps the produced future in a child decorator.  The inner
service is a state `T` with a step function `innerCall`. -/
def call {T Req F : Type} (s : LogErrors T) (innerCall : T → Req → F × T)
    (req : Req) : LogErrors F × LogErrors T :=
  (s.child (innerCall s.inner req).1, { s with inner := (innerCall s.inner req).2 })

/-- `impl NewService for LogErrors`: `new_service` wraps the inner
construction future in a child decorator. -/
def new_service {T F : Type} (s : LogErrors T) (innerNew : T → F) :
    LogErrors F :=
  s.child (innerNew s.inner)

end LogErrors

/-- Run `LogErrors.poll` over a whole sequence of inner poll outcomes,
collecting the forwarded outcomes and all emitted records in order. -/
def LogErrors.pollSeq {T R E : Type} (s : LogErrors T) (render : E → String) :
    List (PollResult R E) → List (PollResult R E) × List LogRecord
  | [] => ([], [])
  | p :: ps =>
      match s.poll render p, s.pollSeq render ps with
      | (r, logs), (rs, logss) => (r :: rs, logs ++ logss)

/-- Drive a `LogErrors` decorator whose inner future is modelled by its
list of successive poll outcomes. -/
def LogErrors.run {R E : Type} (s : LogErrors (List (PollResult R E)))
    (render : E → String) : List (PollResult R E) × List LogRecord :=
  s.pollSeq render s.inner

namespace LogResponses

/-- `LogResponses::new(inner)`: level defaults to `Debug`, `NotReady`
logging is off, everything else unset. -/
def new {T : Type} (inner : T) : LogResponses T :=
  { inner := inner
  , level := Level.Debug
  , not_ready := false
  , target := none
  , module_path := none
  , file := none
  , line := none }

/-- `LogResponses::at_level`. -/
def at_level {T : Type} (s : LogResponses T) (level : Level) : LogResponses T :=
  { s with level := level }

/-- `LogResponses::with_target`. -/
def with_target {T : Type} (s : LogResponses T) (target : String) :
    LogResponses T :=
  { s with target := some target }

/-- `LogResponses::in_module`. -/
def in_module {T : Type} (s : LogResponses T) (module_path : String) :
    LogResponses T :=
  { s with module_path := some module_path }

/-- `LogResponses::at_location(file, line)`. -/
def at_location {T : Type} (s : LogResponses T) (file : String) (line : Nat) :
    LogResponses T :=
  { s with file := some file, line := some line }

/-- `LogResponses::log_not_ready(not_ready)`. -/
def log_not_ready {T : Type} (s : LogResponses T) (not_ready : Bool) :
    LogResponses T :=
  { s with not_ready := not_ready }

/-- `LogResponses::child`: wrap a new inner value with a copy of the
configuration. -/
def child {T U : Type} (s : LogResponses T) (inner : U) : LogResponses U :=
  { inner := inner
  , not_ready := s.not_ready
  , level := s.level
  , target := s.target
  , module_path := s.module_path
  , file := s.file
  , line := s.line }

/-- `LogResponses::log_line(resp, context)`: builds the emitted record.
`resp` is the `Debug` rendering of the logged value. -/
def log_line {T : Type} (s : LogResponses T) (resp : String)
    (context : String) : LogRecord :=
  { level := s.level
  , file := some (s.file.getD towerLogFile)
  , line := some (s.line.getD logResponsesLine)
  , target := (s.target <|> s.module_path).getD towerLogModulePath
  , module_path := (s.module_path <|> s.target) <|> some towerLogModulePath
  , message := context ++ ": " ++ resp }

/-- `LogResponses::log_poll(poll, context)`: logs `Ready` values, logs
`NotReady` only when the `not_ready` flag is set, and returns the poll
value unchanged.  `render` is the `Debug` rendering of the item; the
`Debug` rendering of `Async::NotReady` itself is the string `NotReady`. -/
def log_poll {T R : Type} (s : LogResponses T) (render : R → String)
    (poll : Async R) (context : String) : Async R × List LogRecord :=
  match poll with
  | Async.NotReady =>
      if s.not_ready then
        (Async.NotReady, [s.log_line "NotReady" context])
      else
        (Async.NotReady, [])
  | Async.Ready rsp =>
      (Async.Ready rsp, [s.log_line (render rsp) context])

/-- `impl Future for LogResponses`: `poll` forwards the inner poll
outcome; the `Ok` path goes through `log_poll`, the error path is
untouched (`Result::map`). -/
def poll {T R E : Type} (s : LogResponses T) (render : R → String)
    (p : PollResult R E) : PollResult R E × List LogRecord :=
  match p with
  | Except.error e => (Except.error e, [])
  | Except.ok a =>
      match s.log_poll render a "Future::poll" with
      | (a2, logs) => (Except.ok a2, logs)

/-- `impl Service for LogResponses`: `poll_ready` forwards the inner
readiness outcome through `log_poll`. -/
def poll_ready {T E : Type} (s : LogResponses T) (render : Unit → String)
    (p : PollResult Unit E) : PollResult Unit E × List LogRecord :=
  match p with
  | Except.error e => (Except.error e, [])
  | Except.ok a =>
      match s.log_poll render a "Service::poll_ready" with
      | (a2, logs) => (Except.ok a2, logs)

/-- `impl Service for LogResponses`: `call` forwards the request to the
inner service and wraps the produced future in a child decorator. -/
def call {T Req F : Type} (s : LogResponses T) (innerCall : T → Req → F × T)
    (req : Req) : LogResponses F × LogResponses T :=
  (s.child (innerCall s.inner req).1, { s with inner := (innerCall s.inner req).2 })

/-- `impl NewService for LogResponses`: `new_service` wraps the inner
construction future in a child decorator. -/
def new_service {T F : Type} (s : LogResponses T) (innerNew : T → F) :
    LogResponses F :=
  s.child (innerNew s.inner)

end LogResponses

/-- Run `LogResponses.poll` over a whole sequence of inner poll outcomes,
collecting the forwarded outcomes and all emitted records in order. -/
def LogResponses.pollSeq {T R E : Type} (s : LogResponses T)
    (render : R → String) :
    List (PollResult R E) → List (PollResult R E) × List LogRecord
  | [] => ([], [])
  | p :: ps =>
      match s.poll render p, s.pollSeq render ps with
      | (r, logs), (rs, logss) => (r :: rs, logs ++ logss)

/-- Drive a `LogResponses` decorator whose inner future is modelled by
its list of successive poll outcomes. -/
def LogResponses.run {R E : Type} (s : LogResponses (List (PollResult R E)))
    (render : R → String) : List (PollResult R E) × List LogRecord :=
  s.pollSeq render s.inner

/-- Each `LogErrors` poll forwards exactly the inner outcome. -/
lemma poll_outcome_errors {T R E : Type} (s : LogErrors T)
    (render : E → String) (p : PollResult R E) :
    (s.poll render p).1 = p := by
  cases p <;> rfl

/-- Each `LogResponses` poll forwards exactly the inner outcome. -/
lemma poll_outcome_responses {T R E : Type} (s : LogResponses T)
    (render : R → String) (p : PollResult R E) :
    (s.poll render p).1 = p := by
  rcases p with e | a
  · rfl
  · rcases a with _ | r
    · by_cases hn : s.not_ready <;>
        simp [LogResponses.poll, LogResponses.log_poll, hn]
    · rfl

/-- A `LogErrors` poll sequence forwards exactly the inner outcomes. -/
lemma pollSeq_outcomes_errors {T R E : Type} (s : LogErrors T)
    (render : E → String) (ps : List (PollResult R E)) :
    (s.pollSeq render ps).1 = ps := by
  induction ps with
  | nil => rfl
  | cons p ps ih =>
      simpa [LogErrors.pollSeq, poll_outcome_errors] using ih

/-- A `LogResponses` poll sequence forwards exactly the inner outcomes. -/
lemma pollSeq_outcomes_responses {T R E : Type} (s : LogResponses T)
    (render : R → String) (ps : List (PollResult R E)) :
    (s.pollSeq render ps).1 = ps := by
  induction ps with
  | nil => rfl
  | cons p ps ih =>
      simpa [LogResponses.pollSeq, poll_outcome_responses] using ih

end TowerLog

/-- Claim C1 (Transparency): for every wrapped computation (modelled by the
list of outcomes its successive polls produce) and every readiness outcome,
the `LogErrors` and `LogResponses` decorators return exactly the same
sequence of outcomes — success values, error values and not-ready signals —
as the undecorated inner instance; logging only adds records on the side. -/
theorem TowerLog.transparency :
    ∀ (R E : Type) (renderE : E → String) (renderR : R → String)
      (renderU : Unit → String)
      (sE : TowerLog.LogErrors (List (TowerLog.PollResult R E)))
      (sR : TowerLog.LogResponses (List (TowerLog.PollResult R E)))
      (pE pR : TowerLog.PollResult Unit E),
      (sE.run renderE).1 = sE.inner ∧
      (sR.run renderR).1 = sR.inner ∧
      (sE.poll_ready renderE pE).1 = pE ∧
      (sR.poll_ready renderU pR).1 = pR := by
  intro R E renderE renderR renderU sE sR pE pR
  refine ⟨TowerLog.pollSeq_outcomes_errors sE renderE sE.inner,
          TowerLog.pollSeq_outcomes_responses sR renderR sR.inner, ?_, ?_⟩
  · cases pE <;> rfl
  · rcases pR with e | a
    · rfl
    · rcases a with _ | r
      · by_cases hn : sR.not_ready <;>
          simp [TowerLog.LogResponses.poll_ready, TowerLog.LogResponses.log_poll, hn]
      · rfl

/-- Claim C2 (Not-ready suppression): a `LogResponses` decorator wrapping a
computation that yields not-ready exactly 5 times and then succeeds once
emits exactly 1 log record when `not_ready` is `false` (the default), and
exactly 6 when it is `true`, whatever the rest of the configuration. -/
theorem TowerLog.not_ready_suppression :
    ∀ (R E : Type) (render : R → String) (r : R) (lvl : TowerLog.Level)
      (tgt mp f : Option String) (ln : Option Nat),
      (TowerLog.LogResponses.run (E := E)
        { inner := List.replicate 5 (Except.ok TowerLog.Async.NotReady) ++
            [Except.ok (TowerLog.Async.Ready r)]
        , level := lvl, not_ready := false, target := tgt
        , module_path := mp, file := f, line := ln } render).2.length = 1 ∧
      (TowerLog.LogResponses.run (E := E)
        { inner := List.replicate 5 (Except.ok TowerLog.Async.NotReady) ++
            [Except.ok (TowerLog.Async.Ready r)]
        , level := lvl, not_ready := true, target := tgt
        , module_path := mp, file := f, line := ln } render).2.length = 6 := by
  intro R E render r lvl tgt mp f ln
  constructor <;>
    simp [TowerLog.LogResponses.run, TowerLog.LogResponses.pollSeq,
      TowerLog.LogResponses.poll, TowerLog.LogResponses.log_poll,
      List.replicate]

/-- Claim C3 (Config inheritance): the child decorator produced by
`Service::call` or `NewService::new_service` of either decorator carries
field-for-field identical configuration values while wrapping the newly
produced inner computation. -/
theorem TowerLog.config_inheritance :
    ∀ (T Req F : Type) (sE : TowerLog.LogErrors T)
      (sR : TowerLog.LogResponses T) (innerCall : T → Req → F × T)
      (innerNew : T → F) (req : Req),
      ((sE.call innerCall req).1.level = sE.level ∧
       (sE.call innerCall req).1.target = sE.target ∧
       (sE.call innerCall req).1.module_path = sE.module_path ∧
       (sE.call innerCall req).1.file = sE.file ∧
       (sE.call innerCall req).1.line = sE.line ∧
       (sE.call innerCall req).1.inner = (innerCall sE.inner req).1) ∧
      ((sE.new_service innerNew).level = sE.level ∧
       (sE.new_service innerNew).target = sE.target ∧
       (sE.new_service innerNew).module_path = sE.module_path ∧
       (sE.new_service innerNew).file = sE.file ∧
       (sE.new_service innerNew).line = sE.line ∧
       (sE.new_service innerNew).inner = innerNew sE.inner) ∧
      ((sR.call innerCall req).1.level = sR.level ∧
       (sR.call innerCall req).1.not_ready = sR.not_ready ∧
       (sR.call innerCall req).1.target = sR.target ∧
       (sR.call innerCall req).1.module_path = sR.module_path ∧
       (sR.call innerCall req).1.file = sR.file ∧
       (sR.call innerCall req).1.line = sR.line ∧
       (sR.call innerCall req).1.inner = (innerCall sR.inner req).1) ∧
      ((sR.new_service innerNew).level = sR.level ∧
       (sR.new_service innerNew).not_ready = sR.not_ready ∧
       (sR.new_service innerNew).target = sR.target ∧
       (sR.new_service innerNew).module_path = sR.module_path ∧
       (sR.new_service innerNew).file = sR.file ∧
       (sR.new_service innerNew).line = sR.line ∧
       (sR.new_service innerNew).inner = innerNew sR.inner) := by
  intro T Req F sE sR innerCall innerNew req
  repeat first | apply And.intro | rfl

/-- Claim C4 (Target/module/file/line resolution): every record built by
`log_line` has target = explicit target, else explicit module path, else
the defining module path; module path = explicit module path, else
explicit target, else the defining module path; file and line = the
explicit ones, else the defining location of the respective decorator. -/
theorem TowerLog.attribution_resolution :
    ∀ (T : Type) (sE : TowerLog.LogErrors T) (sR : TowerLog.LogResponses T)
      (err rsp ctxE ctxR : String),
      ((sE.log_line err ctxE).target =
        (match sE.target, sE.module_path with
         | some t, _ => t
         | none, some m => m
         | none, none => TowerLog.towerLogModulePath) ∧
       (sE.log_line err ctxE).module_path = some
        (match sE.module_path, sE.target with
         | some m, _ => m
         | none, some t => t
         | none, none => TowerLog.towerLogModulePath) ∧
       (sE.log_line err ctxE).file = some
        (match sE.file with
         | some fl => fl
         | none => TowerLog.towerLogFile) ∧
       (sE.log_line err ctxE).line = some
        (match sE.line with
         | some n => n
         | none => TowerLog.logErrorsLine)) ∧
      ((sR.log_line rsp ctxR).target =
        (match sR.target, sR.module_path with
         | some t, _ => t
         | none, some m => m
         | none, none => TowerLog.towerLogModulePath) ∧
       (sR.log_line rsp ctxR).module_path = some
        (match sR.module_path, sR.target with
         | some m, _ => m
         | none, some t => t
         | none, none => TowerLog.towerLogModulePath) ∧
       (sR.log_line rsp ctxR).file = some
        (match sR.file with
         | some fl => fl
         | none => TowerLog.towerLogFile) ∧
       (sR.log_line rsp ctxR).line = some
        (match sR.line with
         | some n => n
         | none => TowerLog.logResponsesLine)) := by
  intro T sE sR err rsp ctxE ctxR
  obtain ⟨iE, lvlE, tgtE, mpE, fE, lnE⟩ := sE
  obtain ⟨iR, lvlR, nrR, tgtR, mpR, fR, lnR⟩ := sR
  refine ⟨⟨?_, ?_, ?_, ?_⟩, ⟨?_, ?_, ?_, ?_⟩⟩
  · cases tgtE <;> cases mpE <;> rfl
  · cases tgtE <;> cases mpE <;> rfl
  · cases fE <;> rfl
  · cases lnE <;> rfl
  · cases tgtR <;> cases mpR <;> rfl
  · cases tgtR <;> cases mpR <;> rfl
  · cases fR <;> rfl
  · cases lnR <;> rfl

/-- Claim C5 (Error-decorator silence on success): polling any computation
that never errors (an arbitrary list of `Ok` outcomes) through `LogErrors`
forwards every outcome unchanged and emits no log record, for every
configuration (in particular every level). -/
theorem TowerLog.log_errors_silent_on_success :
    ∀ (R E : Type) (render : E → String) (s : TowerLog.LogErrors Unit)
      (asyncs : List (TowerLog.Async R)),
      s.pollSeq (E := E) render (asyncs.map Except.ok) =
        (asyncs.map Except.ok, ([] : List TowerLog.LogRecord)) := by
  intro R E render s asyncs
  induction asyncs with
  | nil => rfl
  | cons a rest ih =>
      simp [TowerLog.LogErrors.pollSeq, TowerLog.LogErrors.poll, ih]

/-- Claim C6 (Response-decorator silence on the error path): a single
`LogResponses` poll at an error outcome forwards that exact error and
emits no record, and a whole sequence of error outcomes is forwarded
unchanged with no records, for every configuration. -/
theorem TowerLog.log_responses_silent_on_error :
    ∀ (R E : Type) (render : R → String) (s : TowerLog.LogResponses Unit)
      (e : E) (errs : List E),
      s.poll (R := R) render (Except.error e) = (Except.error e, []) ∧
      s.pollSeq (R := R) render (errs.map Except.error) =
        (errs.map Except.error, ([] : List TowerLog.LogRecord)) := by
  intro R E render s e errs
  refine ⟨rfl, ?_⟩
  induction errs with
  | nil => rfl
  | cons e2 rest ih =>
      simp [TowerLog.LogResponses.pollSeq, TowerLog.LogResponses.poll, ih]

/-- Claim C7 (Defaults at construction): `LogErrors::new` yields level
`Error` with target, module path, file and line unset; `LogResponses::new`
yields level `Debug`, `not_ready = false`, and the same fields unset; both
store the given inner value. -/
theorem TowerLog.construction_defaults :
    ∀ (T : Type) (inner : T),
      ((TowerLog.LogErrors.new inner).inner = inner ∧
       (TowerLog.LogErrors.new inner).level = TowerLog.Level.Error ∧
       (TowerLog.LogErrors.new inner).target = none ∧
       (TowerLog.LogErrors.new inner).module_path = none ∧
       (TowerLog.LogErrors.new inner).file = none ∧
       (TowerLog.LogErrors.new inner).line = none) ∧
      ((TowerLog.LogResponses.new inner).inner = inner ∧
       (TowerLog.LogResponses.new inner).level = TowerLog.Level.Debug ∧
       (TowerLog.LogResponses.new inner).not_ready = false ∧
       (TowerLog.LogResponses.new inner).target = none ∧
       (TowerLog.LogResponses.new inner).module_path = none ∧
       (TowerLog.LogResponses.new inner).file = none ∧
       (TowerLog.LogResponses.new inner).line = none) := by
  intro T inner
  repeat first | apply And.intro | rfl

/-- Claim C8 (Fluent setters are total frame-preserving updates): each
setter of either decorator returns the decorator with only the named
field(s) set to the argument; the inner value and every other
configuration field are unchanged.  Totality over arbitrary arguments
(including the empty string) is expressed by the universal quantifiers. -/
theorem TowerLog.setters_frame :
    ∀ (T : Type) (s : TowerLog.LogErrors T) (s2 : TowerLog.LogResponses T)
      (lvl : TowerLog.Level) (tgt mp fl : String) (n : Nat) (b : Bool),
      (s.at_level lvl = { s with level := lvl } ∧
       s.with_target tgt = { s with target := some tgt } ∧
       s.in_module mp = { s with module_path := some mp } ∧
       s.at_location fl n = { s with file := some fl, line := some n }) ∧
      (s2.at_level lvl = { s2 with level := lvl } ∧
       s2.with_target tgt = { s2 with target := some tgt } ∧
       s2.in_module mp = { s2 with module_path := some mp } ∧
       s2.at_location fl n = { s2 with file := some fl, line := some n } ∧
       s2.log_not_ready b = { s2 with not_ready := b }) := by
  intro T s s2 lvl tgt mp fl n b
  repeat first | apply And.intro | rfl

/-- Claim C9 (Factory exposes the inner service type undecorated): for both
decorators, `new_service` wraps only the construction computation in a
child; when that computation completes with a service value, the very
value of the inner factory's service type is returned, not a further
decorated wrapper — the poll below forwards `svc : S` itself, and for
`LogErrors` the successful completion also emits no record, so the
constructed service is driven afterwards with no middleware in the way. -/
theorem TowerLog.new_service_undecorated_item :
    ∀ (T F S E : Type) (sE : TowerLog.LogErrors T)
      (sR : TowerLog.LogResponses T) (innerNew : T → F)
      (renderE : E → String) (renderS : S → String) (svc : S),
      (sE.new_service innerNew).inner = innerNew sE.inner ∧
      (sR.new_service innerNew).inner = innerNew sR.inner ∧
      ((sE.new_service innerNew).poll (R := S) renderE
        (Except.ok (TowerLog.Async.Ready svc))) =
        (Except.ok (TowerLog.Async.Ready svc), []) ∧
      ((sR.new_service innerNew).poll (E := E) renderS
        (Except.ok (TowerLog.Async.Ready svc))).1 =
        Except.ok (TowerLog.Async.Ready svc) := by
  intro T F S E sE sR innerNew renderE renderS svc
  exact ⟨rfl, rfl, rfl, rfl⟩

/-- Claim C10 (Response factory logs the constructed service): polling the
`LogResponses` construction computation at a successful completion emits
exactly one record, built by the child's `log_line` from the `Debug`
rendering of the constructed service value with context `Future::poll`;
its message is `Future::poll: ` followed by that rendering and its level
is the parent's configured level.  The need for `renderS : S → String`
mirrors the `T::Service: fmt::Debug` bound on the `NewService` impl. -/
theorem TowerLog.new_service_logs_constructed_service :
    ∀ (T F S E : Type) (sR : TowerLog.LogResponses T) (innerNew : T → F)
      (renderS : S → String) (svc : S),
      ((sR.new_service innerNew).poll (E := E) renderS
        (Except.ok (TowerLog.Async.Ready svc))).2 =
        [(sR.child (innerNew sR.inner)).log_line (renderS svc)
          "Future::poll"] ∧
      ((sR.child (innerNew sR.inner)).log_line (renderS svc)
        "Future::poll").message = "Future::poll: " ++ renderS svc ∧
      ((sR.child (innerNew sR.inner)).log_line (renderS svc)
        "Future::poll").level = sR.level := by
  intro T F S E sR innerNew renderS svc
  exact ⟨rfl, rfl, rfl⟩
